import Mathlib

/-! Shallow embedding of the LINE-bot restaurant reservation service (`app.py`):
the store configuration constants, the SQLite-backed persistence (per-user
conversation states and reservation rows), the availability helpers, the
time-slot quick-reply enumeration, and the two webhook event handlers
(`handle_text_message` and `handle_postback`).  Python datetimes are embedded
as a record of calendar fields; `datetime.isoformat`, `datetime.fromisoformat`
and `strftime` are implemented on that record.  Reservation datetimes are
stored as the ISO strings the code writes, so the SQL `LIKE` date-prefix query
of `count_reservations_for_datetime` is modelled on actual character lists.
Wall-clock instants (`datetime.now()` and the quick-reply slot arithmetic) are
modelled as minutes on a linear timeline (`Nat`).  The LINE SDK marshaling is
out of scope: an outbound reply is a list of `Msg` values, and an inbound
event carries the observations the handlers make of it. -/

/-- Store opening time, `dt_time(10, 0)` in the source. -/
def STORE_OPEN_TIME : Nat × Nat := (10, 0)

/-- Store closing time, `dt_time(22, 0)` in the source. -/
def STORE_CLOSE_TIME : Nat × Nat := (22, 0)

/-- Interval between bookable slots, in minutes. -/
def RESERVATION_INTERVAL_MINUTES : Nat := 30

/-- Maximum number of reservations accepted for the "same slot"
(per the source comment; the query actually counts per day, see
`count_reservations_for_datetime`). -/
def MAX_RESERVATIONS_PER_SLOT : Nat := 2

/-- Minutes past midnight of an `(hour, minute)` time of day. -/
def timeMinutes (t : Nat × Nat) : Nat := t.1 * 60 + t.2

/-- Decimal digit character, as produced by the zero-padded decimal rendering
of Python `isoformat` / `strftime` (arguments are always below 10 here). -/
def digitChar (n : Nat) : Char :=
  match n with
  | 0 => '0'
  | 1 => '1'
  | 2 => '2'
  | 3 => '3'
  | 4 => '4'
  | 5 => '5'
  | 6 => '6'
  | 7 => '7'
  | 8 => '8'
  | _ => '9'

/-- Four-digit zero-padded year, `%Y` / the year part of `isoformat`. -/
def yearChars (y : Nat) : List Char :=
  [digitChar (y / 1000 % 10), digitChar (y / 100 % 10), digitChar (y / 10 % 10), digitChar (y % 10)]

/-- Two-digit zero-padded field, `%m` / `%d` / `%H` / `%M` / `%S`. -/
def twoChars (n : Nat) : List Char :=
  [digitChar (n / 10 % 10), digitChar (n % 10)]

/-- Python `datetime` value at second resolution, as used by the bot. -/
structure DateTime where
  year : Nat
  month : Nat
  day : Nat
  hour : Nat
  minute : Nat
  second : Nat
deriving DecidableEq

/-- Field ranges guaranteed by the Python `datetime` type. -/
def ValidDT (d : DateTime) : Prop :=
  1 ≤ d.year ∧ d.year ≤ 9999 ∧ 1 ≤ d.month ∧ d.month ≤ 12 ∧ 1 ≤ d.day ∧ d.day ≤ 31 ∧
    d.hour ≤ 23 ∧ d.minute ≤ 59 ∧ d.second ≤ 59

instance (d : DateTime) : Decidable (ValidDT d) := by unfold ValidDT; infer_instance

/-- Characters of the date part `YYYY-MM-DD` of `isoformat`. -/
def DateTime.dateChars (d : DateTime) : List Char :=
  yearChars d.year ++ '-' :: (twoChars d.month ++ '-' :: twoChars d.day)

/-- Characters of the time part `HH:MM:SS` of `isoformat`. -/
def DateTime.timeChars (d : DateTime) : List Char :=
  twoChars d.hour ++ ':' :: (twoChars d.minute ++ ':' :: twoChars d.second)

/-- The date part `YYYY-MM-DD` as a string. -/
def DateTime.dateIso (d : DateTime) : String := String.mk d.dateChars

/-- Python `datetime.isoformat()` on a whole-second datetime:
`YYYY-MM-DDTHH:MM:SS`. -/
def DateTime.isoformat (d : DateTime) : String :=
  String.mk (d.dateChars ++ 'T' :: d.timeChars)

/-- Python `strftime(str1)` with format `%H:%M`, used for the slot labels and
the time echo of the time-selection step. -/
def DateTime.strftimeHM (d : DateTime) : String :=
  String.mk (twoChars d.hour ++ ':' :: twoChars d.minute)

/-- Python `strftime` with the Japanese format `%Y年%m月%d日 %H時%M分` used in
the confirmation summary. -/
def DateTime.strftimeJp (d : DateTime) : String :=
  String.mk (yearChars d.year) ++ "年" ++ String.mk (twoChars d.month) ++ "月" ++
    String.mk (twoChars d.day) ++ "日 " ++ String.mk (twoChars d.hour) ++ "時" ++
    String.mk (twoChars d.minute) ++ "分"

/-- Numeric value of a decimal digit character, `none` otherwise. -/
def digitVal (c : Char) : Option Nat :=
  if c.isDigit then some (c.toNat - 48) else none

/-- Value of two decimal digit characters. -/
def parseTwo (a b : Char) : Option Nat := do
  let x ← digitVal a
  let y ← digitVal b
  pure (x * 10 + y)

/-- Value of four decimal digit characters. -/
def parseFour (a b c d : Char) : Option Nat := do
  let x ← parseTwo a b
  let y ← parseTwo c d
  pure (x * 100 + y)

/-- Range check and packing of the six parsed fields. -/
def mkValidDT (y mo da ho mi se : Nat) : Option DateTime :=
  if ValidDT ⟨y, mo, da, ho, mi, se⟩ then some ⟨y, mo, da, ho, mi, se⟩ else none

/-- Python `datetime.fromisoformat`, modelled for the canonical
`YYYY-MM-DDTHH:MM:SS` form that `datetime.isoformat()` produces for the
whole-second datetimes this bot handles (the quick-reply payloads and the
stored `datetime_obj_iso` strings are exactly of this form).  Any other string
is rejected (`none` embeds the raised `ValueError`); the field-range check
mirrors the validation the `datetime` constructor performs, with the day
bound approximated by 31 independently of the month. -/
def fromisoformat (s : String) : Option DateTime :=
  match s.data with
  | y1 :: y2 :: y3 :: y4 :: w1 :: m1 :: m2 :: w2 :: d1 :: d2 :: wT :: h1 :: h2 :: w3 ::
      n1 :: n2 :: w4 :: s1 :: s2 :: [] =>
      if w1 = '-' ∧ w2 = '-' ∧ wT = 'T' ∧ w3 = ':' ∧ w4 = ':' then do
        let y ← parseFour y1 y2 y3 y4
        let mo ← parseTwo m1 m2
        let da ← parseTwo d1 d2
        let ho ← parseTwo h1 h2
        let mi ← parseTwo n1 n2
        let se ← parseTwo s1 s2
        mkValidDT y mo da ho mi se
      else none
  | _ => none

/-- One row of the `reservations` table (`id` is the list position). -/
structure Reservation where
  user_id : String
  reservation_datetime : String
  num_people : Int
  status : String
  created_at : String
deriving DecidableEq

/-- SQL `LIKE` with the wildcard-free pattern `pat` followed by `%`:
the column value starts with `pat`. -/
def likeStartsWith (s pat : String) : Bool :=
  pat.data.isPrefixOf s.data

/-- Python `s.split(str2)[0]` for the separator `T`: the longest prefix not
containing `T`. -/
def splitDateT (s : String) : String :=
  String.mk (s.data.takeWhile (fun c => c != 'T'))

/-- The source's `count_reservations_for_datetime`: number of rows whose
`reservation_datetime` matches `LIKE date-part-of(isoformat)%` and whose
`status` is `confirmed` — a same-calendar-day count by string prefix. -/
def count_reservations_for_datetime (resvs : List Reservation) (dt : DateTime) : Nat :=
  (resvs.filter (fun r =>
    likeStartsWith r.reservation_datetime (splitDateT dt.isoformat) && r.status == "confirmed")).length

/-- Seconds past midnight of a datetime's time of day (Python `time` values of
valid datetimes compare exactly like this linearisation). -/
def DateTime.timeOfDaySeconds (d : DateTime) : Nat :=
  d.hour * 3600 + d.minute * 60 + d.second

/-- The source's `is_store_open`: `STORE_OPEN_TIME <= t < STORE_CLOSE_TIME`
on the time of day. -/
def is_store_open (d : DateTime) : Bool :=
  decide (timeMinutes STORE_OPEN_TIME * 60 ≤ d.timeOfDaySeconds ∧
    d.timeOfDaySeconds < timeMinutes STORE_CLOSE_TIME * 60)

/-- The source's `is_valid_reservation_minute`: minute aligned to the
reservation interval. -/
def is_valid_reservation_minute (d : DateTime) : Bool :=
  d.minute % RESERVATION_INTERVAL_MINUTES == 0

/-- The partial-booking `data` JSON of a `user_states` row. -/
structure UserData where
  datetime_obj_iso : Option String := none
  people : Option Int := none
deriving DecidableEq

/-- Python truthiness failure of `data.get(key)` for the string field:
missing key or empty string. -/
abbrev falsyStr (o : Option String) : Prop := o = none ∨ o = some ""

/-- Python truthiness failure of `data.get(key)` for the integer field:
missing key or zero. -/
abbrev falsyInt (o : Option Int) : Prop := o = none ∨ o = some 0

/-- The persistent store: the `user_states` table (primary key `user_id`)
and the `reservations` table in insertion order. -/
structure DB where
  states : String → Option (String × UserData)
  reservations : List Reservation

/-- The `state` column read by `get_user_state`, `none` when no row exists. -/
def stateOf (db : DB) (uid : String) : Option String :=
  (db.states uid).map (fun p => p.1)

/-- The parsed `data` column read by `get_user_state`; a missing row or a
falsy (empty) mapping both yield the empty mapping, as in the handlers. -/
def dataOf (db : DB) (uid : String) : UserData :=
  match db.states uid with
  | some p => p.2
  | none => {}

/-- The source's `set_user_state`: upsert keyed by `user_id`. -/
def set_user_state (uid st : String) (d : UserData) (db : DB) : DB :=
  { db with states := fun u => if u = uid then some (st, d) else db.states u }

/-- The source's `delete_user_state`. -/
def delete_user_state (uid : String) (db : DB) : DB :=
  { db with states := fun u => if u = uid then none else db.states u }

/-- Outcome of one invocation of the source's `create_reservation`
(`ok = false` embeds a caught `sqlite3.Error`, in which case no row is
written and the function returns `False`). -/
def create_reservation (ok : Bool) (nowIso : String) (db : DB) (uid : String)
    (dt : DateTime) (n : Int) : DB × Bool :=
  if ok then
    ({ db with reservations :=
        db.reservations ++ [⟨uid, dt.isoformat, n, "confirmed", nowIso⟩] }, true)
  else (db, false)

/-- Loop of `create_time_selection_quick_reply`, with explicit fuel standing
for the `while current < end` iteration bound (callers pass fuel at least
`endMin - current`, which dominates the iteration count since the step is
30 minutes).  Offered slots are kept as absolute minutes; each carries the
payload `select_time|isoformat` in the source. -/
def slotLoopFuel : Nat → Nat → Nat → Nat → List Nat
  | 0, _, _, _ => []
  | fuel + 1, now, endMin, current =>
      if current < endMin then
        (if now + 30 < current then [current] else []) ++
          slotLoopFuel fuel now endMin (current + RESERVATION_INTERVAL_MINUTES)
      else []

/-- The source's `create_time_selection_quick_reply` for the day starting at
`dateMidnight` (minutes), with the current instant `now` (minutes): slots
from the opening time, stepping by the interval while strictly before the
closing time, keeping only instants strictly more than 30 minutes ahead. -/
def create_time_selection_quick_reply (dateMidnight now : Nat) : List Nat :=
  slotLoopFuel
    (dateMidnight + timeMinutes STORE_CLOSE_TIME - (dateMidnight + timeMinutes STORE_OPEN_TIME))
    now (dateMidnight + timeMinutes STORE_CLOSE_TIME) (dateMidnight + timeMinutes STORE_OPEN_TIME)

/-- One outbound reply message, after stripping the SDK marshaling. -/
inductive Msg where
  | text (s : String)
  | textWithQuickReply (s : String) (slots : List Nat)
  | confirmTemplate (body yesLabel yesData noLabel noData : String)
deriving DecidableEq

/-- Observations the text handler makes of an inbound text event:
the stripped text, whether `text.lower()` equals `予約`, the result of
Python `int(text)` (`none` embeds the raised `ValueError`), and the
`ValueError` text used in the re-prompt when parsing fails. -/
structure TextInput where
  raw : String
  lowerIsYoyaku : Bool
  parsedInt : Option Int
  intErrText : String
deriving DecidableEq

/-- An inbound postback, after splitting `postback_data` on `|`:
`selectTime parsed` stands for a payload starting with `select_time|` whose
second token parses (`fromisoformat`) to `parsed`; the remaining payloads are
matched by string equality, with `other` for everything else (the handler has
no branch for those). -/
inductive PostbackInput where
  | selectTime (parsed : Option DateTime)
  | confirmYes
  | confirmNo
  | other (raw : String)
deriving DecidableEq

/-- Ambient facts of one webhook invocation: the current instant in minutes
(`datetime.now()` for the slot enumeration), the midnight of its calendar
day, its ISO string (used as `created_at`), and whether the reservations
`INSERT` of this invocation would succeed. -/
structure Env where
  now : Nat
  todayMidnight : Nat
  nowIso : String
  insertOk : Bool

/-- The source's `handle_text_message`, returning the updated store and the
ordered reply list (an empty list means no reply is sent). -/
def handle_text_message (env : Env) (db : DB) (uid : String) (inp : TextInput) :
    DB × List Msg :=
  if inp.lowerIsYoyaku then
    (set_user_state uid "ASKING_TIME" {} db,
     [Msg.textWithQuickReply "ご希望の時間帯を選択してください（本日分のみ表示）"
        (create_time_selection_quick_reply env.todayMidnight env.now)])
  else if stateOf db uid = some "ASKING_PEOPLE" then
    match inp.parsedInt with
    | none =>
        (db, [Msg.text ("人数を正しく入力してください (例: 2)。\nエラー: " ++ inp.intErrText)])
    | some n =>
        if ¬ (1 ≤ n ∧ n ≤ 10) then
          (db, [Msg.text ("人数を正しく入力してください (例: 2)。\nエラー: 人数は1名から10名の間で入力してください。")])
        else
          match (dataOf db uid).datetime_obj_iso with
          | none =>
              (set_user_state uid "CONFIRMING_RESERVATION" { dataOf db uid with people := some n } db,
               [Msg.confirmTemplate
                  ("以下の内容で予約しますか？\n日時: 未選択\n人数: " ++ toString n ++ "名様")
                  "はい" "confirm_yes" "いいえ" "confirm_no"])
          | some s =>
              if s = "" then
                (set_user_state uid "CONFIRMING_RESERVATION" { dataOf db uid with people := some n } db,
                 [Msg.confirmTemplate
                    ("以下の内容で予約しますか？\n日時: 未選択\n人数: " ++ toString n ++ "名様")
                    "はい" "confirm_yes" "いいえ" "confirm_no"])
              else
                match fromisoformat s with
                | some dtv =>
                    (set_user_state uid "CONFIRMING_RESERVATION" { dataOf db uid with people := some n } db,
                     [Msg.confirmTemplate
                        ("以下の内容で予約しますか？\n日時: " ++ dtv.strftimeJp ++ "\n人数: " ++ toString n ++ "名様")
                        "はい" "confirm_yes" "いいえ" "confirm_no"])
                | none =>
                    (set_user_state uid "CONFIRMING_RESERVATION" { dataOf db uid with people := some n } db,
                     [Msg.text ("人数を正しく入力してください (例: 2)。\nエラー: Invalid isoformat string: " ++ s)])
  else
    (db, [Msg.text ("「" ++ inp.raw ++ "」ですね。\n「予約」と入力すると予約を開始できます。")])

/-- The source's `handle_postback`, returning the updated store and the
ordered reply list (an empty list means no reply is sent; an unparseable
stored `datetime_obj_iso` at confirmation would raise out of the handler,
which the webhook route turns into an empty 500 response — also no reply and
no write). -/
def handle_postback (env : Env) (db : DB) (uid : String) (pb : PostbackInput) :
    DB × List Msg :=
  match pb with
  | .selectTime parsed =>
      if stateOf db uid ≠ some "ASKING_TIME" then
        (delete_user_state uid db,
         [Msg.text "予期せぬ操作です。最初から「予約」と入力してください。"])
      else
        match parsed with
        | none =>
            (db, [Msg.text "時間形式の処理中にエラーが発生しました。もう一度お試しください。"])
        | some dt =>
            if MAX_RESERVATIONS_PER_SLOT ≤ count_reservations_for_datetime db.reservations dt then
              (db, [Msg.text "申し訳ありません。その時間帯は満席です。別の時間をお選びください。",
                    Msg.textWithQuickReply "再度、時間帯をお選びください。"
                      (create_time_selection_quick_reply env.todayMidnight env.now),
                    Msg.text "日時が選択されませんでした。"])
            else
              (set_user_state uid "ASKING_PEOPLE"
                 { dataOf db uid with datetime_obj_iso := some dt.isoformat } db,
               [Msg.text (dt.strftimeHM ++ "ですね。次に、人数（1〜10）を入力してください。"),
                Msg.text "日時が選択されませんでした。"])
  | .confirmYes =>
      if stateOf db uid = some "CONFIRMING_RESERVATION" then
        if falsyStr (dataOf db uid).datetime_obj_iso ∨ falsyInt (dataOf db uid).people then
          (delete_user_state uid db,
           [Msg.text "予約情報が不足しています。最初からやり直してください。"])
        else
          match (dataOf db uid).datetime_obj_iso, (dataOf db uid).people with
          | some s, some n =>
              match fromisoformat s with
              | none => (db, [])
              | some dt =>
                  if MAX_RESERVATIONS_PER_SLOT ≤ count_reservations_for_datetime db.reservations dt then
                    (delete_user_state uid db,
                     [Msg.text "申し訳ありません。最終確認中に満席となってしまいました。お手数ですが、別の日時で再度お試しください。"])
                  else
                    if (create_reservation env.insertOk env.nowIso db uid dt n).2 then
                      (delete_user_state uid (create_reservation env.insertOk env.nowIso db uid dt n).1,
                       [Msg.text "ご予約ありがとうございます！予約を確定しました。"])
                    else
                      ((create_reservation env.insertOk env.nowIso db uid dt n).1,
                       [Msg.text "申し訳ありません、予約の処理中にエラーが発生しました。お手数ですが、少し時間をおいて再度お試しください。"])
          | _, _ => (db, [])
      else (db, [])
  | .confirmNo =>
      if stateOf db uid = some "CONFIRMING_RESERVATION" then
        (delete_user_state uid db,
         [Msg.text "予約をキャンセルしました。最初からやり直す場合は「予約」と入力してください。"])
      else (db, [])
  | .other _ => (db, [])

/-- One inbound webhook event. -/
inductive Event where
  | textEv (uid : String) (inp : TextInput)
  | postbackEv (uid : String) (pb : PostbackInput)

/-- Effect of one webhook event on the persistent store. -/
def stepDB (env : Env) (db : DB) (e : Event) : DB :=
  match e with
  | .textEv uid inp => (handle_text_message env db uid inp).1
  | .postbackEv uid pb => (handle_postback env db uid pb).1

/-- The freshly initialised store (`init_db`): both tables empty. -/
def DB.dbInit : DB := { states := fun _ => none, reservations := [] }

/-- Stores reachable from the initialised store by webhook events. -/
inductive Reachable : DB → Prop
  | init : Reachable DB.dbInit
  | step (env : Env) (e : Event) {db : DB} : Reachable db → Reachable (stepDB env db e)

/-- Error text of the `ValueError` reported by the re-prompt of the
`ASKING_PEOPLE` step: the `int()` parse error when parsing failed, the
range message raised by the handler otherwise. -/
def reprompt_error_text (inp : TextInput) : String :=
  match inp.parsedInt with
  | none => inp.intErrText
  | some _ => "人数は1名から10名の間で入力してください。"

/-- Party-size bound maintained for every stored `data` mapping. -/
def GoodData (d : UserData) : Prop := ∀ n, d.people = some n → 1 ≤ n ∧ n ≤ 10

/-- Shape of every reservation row the system writes. -/
def GoodRes (r : Reservation) : Prop :=
  r.status = "confirmed" ∧ 1 ≤ r.num_people ∧ r.num_people ≤ 10

/-- Store invariant: all stored party sizes lie in `[1, 10]` and every
reservation row is a well-formed `confirmed` row. -/
def DBInv (db : DB) : Prop :=
  (∀ uid p, db.states uid = some p → GoodData p.2) ∧ (∀ r ∈ db.reservations, GoodRes r)

/-! Concrete fixtures used by the witnesses below. -/

def envW : Env := { now := 720, todayMidnight := 0, nowIso := "2024-06-01T12:00:00", insertOk := true }

def envWFail : Env := { now := 900, todayMidnight := 0, nowIso := "2024-06-01T15:00:00", insertOk := false }

def dtNoonW : DateTime := ⟨2024, 6, 1, 12, 0, 0⟩

def dtW : DateTime := ⟨2024, 6, 1, 18, 0, 0⟩

def dtW2 : DateTime := ⟨2024, 6, 2, 18, 0, 0⟩

def dtBadW : DateTime := ⟨2024, 6, 1, 23, 17, 0⟩

def dtRunW : DateTime := ⟨2024, 6, 1, 14, 0, 0⟩

def resA : Reservation := ⟨"A", "2024-06-01T12:00:00", 2, "confirmed", "2024-05-31T10:00:00"⟩

def resB : Reservation := ⟨"B", "2024-06-01T12:00:00", 2, "confirmed", "2024-05-31T11:00:00"⟩

def resDefault : Reservation := ⟨"", "", 0, "", ""⟩

def dataW : UserData := { datetime_obj_iso := some "2024-06-01T18:00:00", people := some 3 }

def dataW2 : UserData := { datetime_obj_iso := some "2024-06-02T18:00:00", people := some 3 }

def dbFullW : DB :=
  { states := fun u => if u = "U1" then some ("CONFIRMING_RESERVATION", dataW) else none,
    reservations := [resA, resB] }

def dbFreeW : DB :=
  { states := fun u => if u = "U1" then some ("CONFIRMING_RESERVATION", dataW2) else none,
    reservations := [resA, resB] }

def dbAskPeopleW : DB :=
  { states := fun u =>
      if u = "U1" then some ("ASKING_PEOPLE", { datetime_obj_iso := some "2024-06-01T18:00:00" }) else none,
    reservations := [] }

def dbAskTimeW : DB :=
  { states := fun u => if u = "U1" then some ("ASKING_TIME", {}) else none,
    reservations := [] }

def inpBadTextW : TextInput :=
  { raw := "abc", lowerIsYoyaku := false, parsedInt := none,
    intErrText := "invalid literal for int() with base 10: abc" }

def inpYoyakuW : TextInput :=
  { raw := "予約", lowerIsYoyaku := true, parsedInt := none,
    intErrText := "invalid literal for int() with base 10: 予約" }

def inpThreeW : TextInput :=
  { raw := "3", lowerIsYoyaku := false, parsedInt := some 3, intErrText := "" }

def dbRun1 : DB := stepDB envW DB.dbInit (.textEv "U1" inpYoyakuW)

def dbRun2 : DB := stepDB envW dbRun1 (.postbackEv "U1" (.selectTime (some dtRunW)))

def dbRun3 : DB := stepDB envW dbRun2 (.textEv "U1" inpThreeW)

def dbRun4 : DB := stepDB envW dbRun3 (.postbackEv "U1" .confirmYes)

theorem digitChar_inj : ∀ a, a < 10 → ∀ b, b < 10 → digitChar a = digitChar b → a = b := by decide

theorem digitChar_ne_T (n : Nat) : (digitChar n != 'T') = true := by
  unfold digitChar
  split <;> decide

theorem dateChars_all_ne_T (d : DateTime) : ∀ c ∈ d.dateChars, (c != 'T') = true := by
  intro c hc
  simp only [DateTime.dateChars, yearChars, twoChars, List.mem_append, List.mem_cons,
    List.mem_singleton, List.not_mem_nil, or_false] at hc
  rcases hc with (h | h | h | h) | h | (h | h) | h | (h | h) <;> subst h <;>
    first
      | exact digitChar_ne_T _
      | decide

theorem takeWhile_append_stop {α : Type} {p : α → Bool} (x : α) (r : List α) :
    ∀ (l : List α), (∀ a ∈ l, p a = true) → p x = false → (l ++ x :: r).takeWhile p = l := by
  intro l
  induction l with
  | nil =>
      intro _ hx
      simp [List.takeWhile_cons, hx]
  | cons a t ih =>
      intro hl hx
      have ha : p a = true := hl a (by simp)
      simp [List.takeWhile_cons, ha, ih (fun b hb => hl b (by simp [hb])) hx]

theorem splitDateT_isoformat (d : DateTime) : splitDateT d.isoformat = d.dateIso := by
  unfold splitDateT DateTime.isoformat DateTime.dateIso
  congr 1
  exact takeWhile_append_stop _ _ _ (dateChars_all_ne_T d) (by decide)

theorem dateChars_length (d : DateTime) : d.dateChars.length = 10 := rfl

theorem likeStartsWith_isoformat (d dq : DateTime) :
    likeStartsWith d.isoformat dq.dateIso = true ↔ dq.dateChars = d.dateChars := by
  unfold likeStartsWith DateTime.isoformat DateTime.dateIso
  rw [List.isPrefixOf_iff_prefix]
  constructor
  · intro h
    have h2 := List.prefix_iff_eq_take.mp h
    rw [dateChars_length, List.take_left' (dateChars_length d)] at h2
    exact h2
  · intro h
    rw [h]
    exact List.prefix_append _ _

theorem dateChars_inj {d e : DateTime} (hd : ValidDT d) (he : ValidDT e) :
    d.dateChars = e.dateChars ↔ (d.year = e.year ∧ d.month = e.month ∧ d.day = e.day) := by
  obtain ⟨hd1, hd2, hd3, hd4, hd5, hd6, -, -, -⟩ := hd
  obtain ⟨he1, he2, he3, he4, he5, he6, -, -, -⟩ := he
  constructor
  · intro h
    simp only [DateTime.dateChars, yearChars, twoChars, List.cons_append, List.nil_append,
      List.cons.injEq, and_true] at h
    obtain ⟨h1, h2, h3, h4, -, h5, h6, -, h7, h8⟩ := h
    have ten : (0 : Nat) < 10 := by norm_num
    have e1 := digitChar_inj _ (Nat.mod_lt _ ten) _ (Nat.mod_lt _ ten) h1
    have e2 := digitChar_inj _ (Nat.mod_lt _ ten) _ (Nat.mod_lt _ ten) h2
    have e3 := digitChar_inj _ (Nat.mod_lt _ ten) _ (Nat.mod_lt _ ten) h3
    have e4 := digitChar_inj _ (Nat.mod_lt _ ten) _ (Nat.mod_lt _ ten) h4
    have e5 := digitChar_inj _ (Nat.mod_lt _ ten) _ (Nat.mod_lt _ ten) h5
    have e6 := digitChar_inj _ (Nat.mod_lt _ ten) _ (Nat.mod_lt _ ten) h6
    have e7 := digitChar_inj _ (Nat.mod_lt _ ten) _ (Nat.mod_lt _ ten) h7
    have e8 := digitChar_inj _ (Nat.mod_lt _ ten) _ (Nat.mod_lt _ ten) h8
    refine ⟨?_, ?_, ?_⟩ <;> omega
  · rintro ⟨h1, h2, h3⟩
    simp [DateTime.dateChars, yearChars, twoChars, h1, h2, h3]

theorem count_eq_sameDay (resvs : List Reservation) (f : Reservation → DateTime) (dt : DateTime)
    (hdt : ValidDT dt)
    (hr : ∀ r ∈ resvs, ValidDT (f r) ∧ r.reservation_datetime = (f r).isoformat) :
    count_reservations_for_datetime resvs dt =
      (resvs.filter (fun r => r.status == "confirmed" &&
        ((f r).year == dt.year && ((f r).month == dt.month && (f r).day == dt.day)))).length := by
  unfold count_reservations_for_datetime
  rw [splitDateT_isoformat]
  congr 1
  apply List.filter_congr
  intro r hrm
  obtain ⟨hv, hs⟩ := hr r hrm
  rw [hs, Bool.and_comm]
  congr 1
  rw [Bool.eq_iff_iff]
  simp only [Bool.and_eq_true, beq_iff_eq]
  rw [likeStartsWith_isoformat, dateChars_inj hdt hv]
  constructor
  · rintro ⟨h1, h2, h3⟩
    exact ⟨h1.symm, h2.symm, h3.symm⟩
  · rintro ⟨h1, h2, h3⟩
    exact ⟨h1.symm, h2.symm, h3.symm⟩

theorem slotLoopFuel_mem (now endMin : Nat) :
    ∀ (fuel current m : Nat), endMin - current ≤ fuel →
      (m ∈ slotLoopFuel fuel now endMin current ↔
        ((∃ k, m = current + 30 * k) ∧ m < endMin ∧ now + 30 < m)) := by
  intro fuel
  induction fuel with
  | zero =>
      intro current m hf
      unfold slotLoopFuel
      simp only [List.not_mem_nil, false_iff, not_and]
      rintro ⟨k, hk⟩ hlt
      omega
  | succ f ih =>
      intro current m hf
      unfold slotLoopFuel
      by_cases hlt : current < endMin
      · rw [if_pos hlt]
        simp only [RESERVATION_INTERVAL_MINUTES, List.mem_append]
        rw [ih (current + 30) m (by omega)]
        constructor
        · rintro (h | ⟨⟨k, hk⟩, h2, h3⟩)
          · by_cases hc : now + 30 < current
            · rw [if_pos hc] at h
              simp only [List.mem_singleton] at h
              subst h
              exact ⟨⟨0, by omega⟩, hlt, hc⟩
            · rw [if_neg hc] at h
              simp at h
          · exact ⟨⟨k + 1, by omega⟩, h2, h3⟩
        · rintro ⟨⟨k, hk⟩, h2, h3⟩
          cases k with
          | zero =>
              left
              have hm : m = current := by omega
              subst hm
              rw [if_pos h3]
              simp
          | succ k2 =>
              right
              exact ⟨⟨k2, by omega⟩, h2, h3⟩
      · rw [if_neg hlt]
        simp only [List.not_mem_nil, false_iff, not_and]
        intro _ h2
        omega

theorem fromisoformat_ne_empty {s : String} {dt : DateTime} (h : fromisoformat s = some dt) :
    s ≠ "" := by
  intro he
  subst he
  have : fromisoformat "" = none := rfl
  rw [this] at h
  cases h

theorem stateOf_eq {db : DB} {uid st : String} {d : UserData}
    (h : db.states uid = some (st, d)) : stateOf db uid = some st := by
  simp [stateOf, h]

theorem dataOf_eq {db : DB} {uid st : String} {d : UserData}
    (h : db.states uid = some (st, d)) : dataOf db uid = d := by
  simp [dataOf, h]

theorem confirm_yes_success {env : Env} {db : DB} {uid : String} {d : UserData}
    {s : String} {dt : DateTime} {n : Int}
    (hst : db.states uid = some ("CONFIRMING_RESERVATION", d))
    (hdt : d.datetime_obj_iso = some s) (hp : fromisoformat s = some dt)
    (hpe : d.people = some n) (hn : n ≠ 0)
    (hcap : count_reservations_for_datetime db.reservations dt < MAX_RESERVATIONS_PER_SLOT)
    (hok : env.insertOk = true) :
    handle_postback env db uid .confirmYes =
      (delete_user_state uid
        { db with reservations :=
            db.reservations ++ [⟨uid, dt.isoformat, n, "confirmed", env.nowIso⟩] },
       [Msg.text "ご予約ありがとうございます！予約を確定しました。"]) := by
  have hs0 : s ≠ "" := fromisoformat_ne_empty hp
  have hcap' : ¬ MAX_RESERVATIONS_PER_SLOT ≤ count_reservations_for_datetime db.reservations dt := by
    omega
  unfold handle_postback
  rw [stateOf_eq hst, dataOf_eq hst, hdt, hpe]
  simp only [if_pos rfl, falsyStr, falsyInt, hp, hcap', if_neg, create_reservation, hok,
    if_true, reduceCtorEq, Option.some.injEq, hs0, hn, or_self, or_false, false_or,
    ite_false, ite_true, not_false_eq_true]

theorem confirm_yes_full {env : Env} {db : DB} {uid : String} {d : UserData}
    {s : String} {dt : DateTime} {n : Int}
    (hst : db.states uid = some ("CONFIRMING_RESERVATION", d))
    (hdt : d.datetime_obj_iso = some s) (hp : fromisoformat s = some dt)
    (hpe : d.people = some n) (hn : n ≠ 0)
    (hcap : MAX_RESERVATIONS_PER_SLOT ≤ count_reservations_for_datetime db.reservations dt) :
    handle_postback env db uid .confirmYes =
      (delete_user_state uid db,
       [Msg.text "申し訳ありません。最終確認中に満席となってしまいました。お手数ですが、別の日時で再度お試しください。"]) := by
  have hs0 : s ≠ "" := fromisoformat_ne_empty hp
  unfold handle_postback
  rw [stateOf_eq hst, dataOf_eq hst, hdt, hpe]
  simp only [if_pos rfl, falsyStr, falsyInt, hp, hcap, reduceCtorEq, Option.some.injEq,
    hs0, hn, or_self, or_false, false_or, ite_false, ite_true, if_pos, if_true,
    not_false_eq_true]

theorem confirm_yes_insert_fail {env : Env} {db : DB} {uid : String} {d : UserData}
    {s : String} {dt : DateTime} {n : Int}
    (hst : db.states uid = some ("CONFIRMING_RESERVATION", d))
    (hdt : d.datetime_obj_iso = some s) (hp : fromisoformat s = some dt)
    (hpe : d.people = some n) (hn : n ≠ 0)
    (hcap : count_reservations_for_datetime db.reservations dt < MAX_RESERVATIONS_PER_SLOT)
    (hok : env.insertOk = false) :
    handle_postback env db uid .confirmYes =
      (db,
       [Msg.text "申し訳ありません、予約の処理中にエラーが発生しました。お手数ですが、少し時間をおいて再度お試しください。"]) := by
  have hs0 : s ≠ "" := fromisoformat_ne_empty hp
  have hcap' : ¬ MAX_RESERVATIONS_PER_SLOT ≤ count_reservations_for_datetime db.reservations dt := by
    omega
  unfold handle_postback
  rw [stateOf_eq hst, dataOf_eq hst, hdt, hpe]
  simp only [if_pos rfl, falsyStr, falsyInt, hp, hcap', create_reservation, hok,
    reduceCtorEq, Option.some.injEq, hs0, hn, or_self, or_false, false_or,
    ite_false, ite_true, Bool.false_eq_true, not_false_eq_true]

theorem select_time_mismatch {env : Env} {db : DB} {uid : String} {parsed : Option DateTime}
    (hst : stateOf db uid ≠ some "ASKING_TIME") :
    handle_postback env db uid (.selectTime parsed) =
      (delete_user_state uid db,
       [Msg.text "予期せぬ操作です。最初から「予約」と入力してください。"]) := by
  simp only [handle_postback]
  rw [if_pos hst]

theorem select_time_success {env : Env} {db : DB} {uid : String} {d : UserData} {dt : DateTime}
    (hst : db.states uid = some ("ASKING_TIME", d))
    (hcap : count_reservations_for_datetime db.reservations dt < MAX_RESERVATIONS_PER_SLOT) :
    handle_postback env db uid (.selectTime (some dt)) =
      (set_user_state uid "ASKING_PEOPLE" { d with datetime_obj_iso := some dt.isoformat } db,
       [Msg.text (dt.strftimeHM ++ "ですね。次に、人数（1〜10）を入力してください。"),
        Msg.text "日時が選択されませんでした。"]) := by
  have hcap' : ¬ MAX_RESERVATIONS_PER_SLOT ≤ count_reservations_for_datetime db.reservations dt := by
    omega
  unfold handle_postback
  rw [stateOf_eq hst, dataOf_eq hst]
  simp only [hcap', ite_false, ite_true, if_neg, not_true_eq_false, ne_eq,
    Option.some.injEq, not_false_eq_true, reduceCtorEq]

theorem select_time_full {env : Env} {db : DB} {uid : String} {d : UserData} {dt : DateTime}
    (hst : db.states uid = some ("ASKING_TIME", d))
    (hcap : MAX_RESERVATIONS_PER_SLOT ≤ count_reservations_for_datetime db.reservations dt) :
    handle_postback env db uid (.selectTime (some dt)) =
      (db,
       [Msg.text "申し訳ありません。その時間帯は満席です。別の時間をお選びください。",
        Msg.textWithQuickReply "再度、時間帯をお選びください。"
          (create_time_selection_quick_reply env.todayMidnight env.now),
        Msg.text "日時が選択されませんでした。"]) := by
  unfold handle_postback
  rw [stateOf_eq hst]
  simp only [hcap, ite_true, if_pos, not_true_eq_false, ne_eq, Option.some.injEq,
    not_false_eq_true, reduceCtorEq, ite_false]

theorem confirm_no_no_state {env : Env} {db : DB} {uid : String}
    (hst : db.states uid = none) :
    handle_postback env db uid .confirmNo = (db, []) := by
  unfold handle_postback
  have : stateOf db uid = none := by simp [stateOf, hst]
  rw [this]
  simp

theorem text_reprompt {env : Env} {db : DB} {uid : String} {d : UserData} {inp : TextInput}
    (hst : db.states uid = some ("ASKING_PEOPLE", d))
    (hy : inp.lowerIsYoyaku = false)
    (hbad : inp.parsedInt = none ∨ ∃ n, inp.parsedInt = some n ∧ ¬ (1 ≤ n ∧ n ≤ 10)) :
    handle_text_message env db uid inp =
      (db, [Msg.text ("人数を正しく入力してください (例: 2)。\nエラー: " ++ reprompt_error_text inp)]) := by
  simp only [handle_text_message, hy, Bool.false_eq_true, if_false, stateOf_eq hst, if_pos rfl,
    ite_true, ite_false]
  rcases hbad with hb | ⟨n, hb, hrange⟩
  · rw [hb]
    simp [reprompt_error_text, hb]
  · rw [hb]
    simp [reprompt_error_text, hb, hrange]

theorem inv_delete {db : DB} {uid : String} (h : DBInv db) : DBInv (delete_user_state uid db) := by
  obtain ⟨h1, h2⟩ := h
  constructor
  · intro u p hp
    simp only [delete_user_state] at hp
    by_cases hu : u = uid
    · simp [hu] at hp
    · simp only [hu, if_false, ite_false] at hp
      exact h1 u p hp
  · exact h2

theorem inv_set {db : DB} {uid st : String} {d : UserData} (hd : GoodData d) (h : DBInv db) :
    DBInv (set_user_state uid st d db) := by
  obtain ⟨h1, h2⟩ := h
  constructor
  · intro u p hp
    simp only [set_user_state] at hp
    by_cases hu : u = uid
    · simp only [hu, if_true, ite_true, Option.some.injEq] at hp
      rw [← hp]
      exact hd
    · simp only [hu, if_false, ite_false] at hp
      exact h1 u p hp
  · exact h2

theorem inv_insert {db : DB} {r : Reservation} (hr : GoodRes r) (h : DBInv db) :
    DBInv { db with reservations := db.reservations ++ [r] } := by
  obtain ⟨h1, h2⟩ := h
  refine ⟨h1, ?_⟩
  intro x hx
  rcases List.mem_append.mp hx with hx | hx
  · exact h2 x hx
  · rw [List.mem_singleton] at hx
    rw [hx]
    exact hr

theorem goodData_dataOf {db : DB} (h : DBInv db) (uid : String) : GoodData (dataOf db uid) := by
  rcases hst : db.states uid with _ | p
  · unfold dataOf
    rw [hst]
    intro n hn
    simp at hn
  · unfold dataOf
    rw [hst]
    exact h.1 uid p hst

theorem inv_step (env : Env) (e : Event) {db : DB} (h : DBInv db) : DBInv (stepDB env db e) := by
  cases e with
  | textEv uid inp =>
      simp only [stepDB, handle_text_message]
      split
      · exact inv_set (by intro n hn; simp at hn) h
      · split
        · split
          · exact h
          · rename_i n heqn
            split
            · exact h
            · rename_i hrange
              have hb : 1 ≤ n ∧ n ≤ 10 := not_not.mp hrange
              have hgood : GoodData { dataOf db uid with people := some n } := by
                intro m hm
                have hm2 : some n = some m := hm
                cases hm2
                exact hb
              split
              · exact inv_set hgood h
              · split
                · exact inv_set hgood h
                · split
                  · exact inv_set hgood h
                  · exact inv_set hgood h
        · exact h
  | postbackEv uid pb =>
      cases pb with
      | selectTime parsed =>
          simp only [stepDB, handle_postback]
          split
          · exact inv_delete h
          · split
            · exact h
            · split
              · exact h
              · apply inv_set ?_ h
                intro m hm
                have hm2 : (dataOf db uid).people = some m := hm
                exact goodData_dataOf h uid m hm2
      | confirmYes =>
          simp only [stepDB, handle_postback]
          split
          · split
            · exact inv_delete h
            · split
              · rename_i s n heqs heqn
                split
                · exact h
                · split
                  · exact inv_delete h
                  · simp only [create_reservation]
                    split
                    · apply inv_delete
                      apply inv_insert ?_ h
                      exact ⟨rfl, goodData_dataOf h uid n heqn⟩
                    · exact h
              · exact h
          · exact h
      | confirmNo =>
          simp only [stepDB, handle_postback]
          split
          · exact inv_delete h
          · exact h
      | other raw =>
          simp only [stepDB, handle_postback]
          exact h

theorem digitVal_digitChar : ∀ k, k ≤ 9 → digitVal (digitChar k) = some k := by decide

theorem parseTwo_digitChar {a b : Nat} (ha : a ≤ 9) (hb : b ≤ 9) :
    parseTwo (digitChar a) (digitChar b) = some (a * 10 + b) := by
  simp [parseTwo, digitVal_digitChar a ha, digitVal_digitChar b hb]

theorem parseFour_digitChar {a b c d : Nat} (ha : a ≤ 9) (hb : b ≤ 9) (hc : c ≤ 9)
    (hd : d ≤ 9) :
    parseFour (digitChar a) (digitChar b) (digitChar c) (digitChar d) =
      some ((a * 10 + b) * 100 + (c * 10 + d)) := by
  simp [parseFour, parseTwo_digitChar ha hb, parseTwo_digitChar hc hd]

theorem isoformat_fromisoformat {dt : DateTime} (hv : ValidDT dt) :
    fromisoformat dt.isoformat = some dt := by
  obtain ⟨h1, h2, h3, h4, h5, h6, h7, h8, h9⟩ := hv
  unfold fromisoformat DateTime.isoformat DateTime.dateChars DateTime.timeChars yearChars twoChars
  simp only [List.cons_append, List.nil_append]
  rw [if_pos (by simp)]
  rw [@parseFour_digitChar (dt.year / 1000 % 10) (dt.year / 100 % 10) (dt.year / 10 % 10)
        (dt.year % 10) (by omega) (by omega) (by omega) (by omega),
      @parseTwo_digitChar (dt.month / 10 % 10) (dt.month % 10) (by omega) (by omega),
      @parseTwo_digitChar (dt.day / 10 % 10) (dt.day % 10) (by omega) (by omega),
      @parseTwo_digitChar (dt.hour / 10 % 10) (dt.hour % 10) (by omega) (by omega),
      @parseTwo_digitChar (dt.minute / 10 % 10) (dt.minute % 10) (by omega) (by omega),
      @parseTwo_digitChar (dt.second / 10 % 10) (dt.second % 10) (by omega) (by omega)]
  simp only [Option.bind_eq_bind, Option.some_bind]
  have hy : (dt.year / 1000 % 10 * 10 + dt.year / 100 % 10) * 100 +
      (dt.year / 10 % 10 * 10 + dt.year % 10) = dt.year := by omega
  have hmo : dt.month / 10 % 10 * 10 + dt.month % 10 = dt.month := by omega
  have hda : dt.day / 10 % 10 * 10 + dt.day % 10 = dt.day := by omega
  have hho : dt.hour / 10 % 10 * 10 + dt.hour % 10 = dt.hour := by omega
  have hmi : dt.minute / 10 % 10 * 10 + dt.minute % 10 = dt.minute := by omega
  have hse : dt.second / 10 % 10 * 10 + dt.second % 10 = dt.second := by omega
  rw [hy, hmo, hda, hho, hmi, hse]
  unfold mkValidDT
  rw [if_pos ?_]
  exact ⟨h1, h2, h3, h4, h5, h6, h7, h8, h9⟩

theorem reachable_inv {db : DB} (h : Reachable db) : DBInv db := by
  induction h with
  | init =>
      refine ⟨fun u p hp => ?_, fun r hr => ?_⟩
      · simp [DB.dbInit] at hp
      · simp [DB.dbInit] at hr
  | step env e hr ih => exact inv_step env e ih

/-- C1: capacity is enforced as a same-calendar-day count:
`count_reservations_for_datetime` counts the `confirmed` reservations whose
stored datetime string carries the same calendar date as the queried
timestamp (equivalently, the same `YYYY-MM-DD` prefix); with
`MAX_RESERVATIONS_PER_SLOT = 2`, when at least two confirmed reservations
already exist on the targeted date, `confirm_yes` sends the fully-booked
message and inserts no reservation row, while when the targeted date still
has capacity (as for a different date) the insertion succeeds. -/
theorem C1_capacity_same_day :
    (∀ (resvs : List Reservation) (f : Reservation → DateTime) (dt : DateTime),
        ValidDT dt →
        (∀ r ∈ resvs, ValidDT (f r) ∧ r.reservation_datetime = (f r).isoformat) →
        count_reservations_for_datetime resvs dt =
          (resvs.filter (fun r => r.status == "confirmed" &&
            ((f r).year == dt.year && ((f r).month == dt.month && (f r).day == dt.day)))).length) ∧
    (∀ (env : Env) (db : DB) (uid : String) (d : UserData) (s : String) (dt : DateTime) (n : Int),
        db.states uid = some ("CONFIRMING_RESERVATION", d) →
        d.datetime_obj_iso = some s → fromisoformat s = some dt →
        d.people = some n → n ≠ 0 →
        MAX_RESERVATIONS_PER_SLOT ≤ count_reservations_for_datetime db.reservations dt →
        (handle_postback env db uid .confirmYes).1.reservations = db.reservations ∧
          (handle_postback env db uid .confirmYes).2 =
            [Msg.text "申し訳ありません。最終確認中に満席となってしまいました。お手数ですが、別の日時で再度お試しください。"]) ∧
    (∀ (env : Env) (db : DB) (uid : String) (d : UserData) (s : String) (dt : DateTime) (n : Int),
        db.states uid = some ("CONFIRMING_RESERVATION", d) →
        d.datetime_obj_iso = some s → fromisoformat s = some dt →
        d.people = some n → n ≠ 0 →
        count_reservations_for_datetime db.reservations dt < MAX_RESERVATIONS_PER_SLOT →
        env.insertOk = true →
        (handle_postback env db uid .confirmYes).1.reservations =
          db.reservations ++ [⟨uid, dt.isoformat, n, "confirmed", env.nowIso⟩]) := by
  refine ⟨fun resvs f dt hdt hr => count_eq_sameDay resvs f dt hdt hr, ?_, ?_⟩
  · intro env db uid d s dt n hst hdt hp hpe hn hcap
    rw [confirm_yes_full hst hdt hp hpe hn hcap]
    exact ⟨rfl, rfl⟩
  · intro env db uid d s dt n hst hdt hp hpe hn hcap hok
    rw [confirm_yes_success hst hdt hp hpe hn hcap hok]
    rfl

theorem C1_capacity_same_day_witness :
    (count_reservations_for_datetime [resA, resB] dtW =
      ([resA, resB].filter (fun r => r.status == "confirmed" &&
        (dtNoonW.year == dtW.year && (dtNoonW.month == dtW.month && dtNoonW.day == dtW.day)))).length) ∧
    ((handle_postback envW dbFullW "U1" .confirmYes).1.reservations = dbFullW.reservations ∧
      (handle_postback envW dbFullW "U1" .confirmYes).2 =
        [Msg.text "申し訳ありません。最終確認中に満席となってしまいました。お手数ですが、別の日時で再度お試しください。"]) ∧
    ((handle_postback envW dbFreeW "U1" .confirmYes).1.reservations =
      dbFreeW.reservations ++ [⟨"U1", dtW2.isoformat, 3, "confirmed", envW.nowIso⟩]) :=
  ⟨C1_capacity_same_day.1 [resA, resB] (fun _ => dtNoonW) dtW (by decide) (by decide),
   C1_capacity_same_day.2.1 envW dbFullW "U1" dataW "2024-06-01T18:00:00" dtW 3
     (by decide) (by decide) (by decide) (by decide) (by decide) (by decide),
   C1_capacity_same_day.2.2 envW dbFreeW "U1" dataW2 "2024-06-02T18:00:00" dtW2 3
     (by decide) (by decide) (by decide) (by decide) (by decide) (by decide) (by decide)⟩

/-- C2: for every user in state `CONFIRMING_RESERVATION` whose stored data
holds both a datetime (stored as the `isoformat` string of a valid datetime,
which is how the time-selection step writes it) and a party size, a
`confirm_yes` postback with capacity still available inserts exactly one
reservation row carrying the stored datetime string, the stored `num_people`
and status `confirmed`, and deletes the user's state row. -/
theorem C2_confirm_yes_inserts_and_clears (env : Env) (db : DB) (uid : String)
    (d : UserData) (dt : DateTime) (n : Int)
    (hv : ValidDT dt)
    (hst : db.states uid = some ("CONFIRMING_RESERVATION", d))
    (hdt : d.datetime_obj_iso = some dt.isoformat)
    (hpe : d.people = some n) (hn : n ≠ 0)
    (hcap : count_reservations_for_datetime db.reservations dt < MAX_RESERVATIONS_PER_SLOT)
    (hok : env.insertOk = true) :
    (handle_postback env db uid .confirmYes).1.reservations =
        db.reservations ++ [⟨uid, dt.isoformat, n, "confirmed", env.nowIso⟩] ∧
      (handle_postback env db uid .confirmYes).1.states uid = none ∧
      (handle_postback env db uid .confirmYes).2 =
        [Msg.text "ご予約ありがとうございます！予約を確定しました。"] := by
  rw [confirm_yes_success hst hdt (isoformat_fromisoformat hv) hpe hn hcap hok]
  refine ⟨rfl, ?_, rfl⟩
  simp [delete_user_state]

theorem C2_confirm_yes_inserts_and_clears_witness :
    (handle_postback envW dbFreeW "U1" .confirmYes).1.reservations =
        dbFreeW.reservations ++ [⟨"U1", dtW2.isoformat, 3, "confirmed", envW.nowIso⟩] ∧
      (handle_postback envW dbFreeW "U1" .confirmYes).1.states "U1" = none ∧
      (handle_postback envW dbFreeW "U1" .confirmYes).2 =
        [Msg.text "ご予約ありがとうございます！予約を確定しました。"] :=
  C2_confirm_yes_inserts_and_clears envW dbFreeW "U1" dataW2 dtW2 3
    (by decide) (by decide) (by decide) (by decide) (by decide) (by decide) (by decide)

/-- C3 counterexample: the claim fails for the input `予約` received while in
state `ASKING_PEOPLE`: the input is non-numeric (`int` parsing fails), yet no
re-prompt is issued — the reserve branch fires first, so the state is
overwritten to `ASKING_TIME` with freshly cleared data instead of remaining
`ASKING_PEOPLE` with unchanged data. -/
theorem C3_reprompt_counterexample :
    dbAskPeopleW.states "U1" =
        some ("ASKING_PEOPLE", { datetime_obj_iso := some "2024-06-01T18:00:00" }) ∧
      inpYoyakuW.parsedInt = none ∧
      (handle_text_message envW dbAskPeopleW "U1" inpYoyakuW).1.states "U1" =
        some ("ASKING_TIME", {}) ∧
      (handle_text_message envW dbAskPeopleW "U1" inpYoyakuW).2 ≠
        [Msg.text ("人数を正しく入力してください (例: 2)。\nエラー: " ++ reprompt_error_text inpYoyakuW)] := by
  refine ⟨by decide, by decide, by decide, by decide⟩

/-- C3 (amended): for every text input other than the reservation keyword
(those whose lowercase form is `予約`) received while the user's state is
`ASKING_PEOPLE` that is non-numeric or parses to an integer outside
`[1, 10]`, a re-prompt message is issued, the user's state row (hence both
the state and its stored data) is unchanged, and no reservation row is
created. -/
theorem C3_reprompt_amended (env : Env) (db : DB) (uid : String) (d : UserData)
    (inp : TextInput)
    (hst : db.states uid = some ("ASKING_PEOPLE", d))
    (hy : inp.lowerIsYoyaku = false)
    (hbad : inp.parsedInt = none ∨ ∃ n, inp.parsedInt = some n ∧ ¬ (1 ≤ n ∧ n ≤ 10)) :
    handle_text_message env db uid inp =
      (db, [Msg.text ("人数を正しく入力してください (例: 2)。\nエラー: " ++ reprompt_error_text inp)]) :=
  text_reprompt hst hy hbad

theorem C3_reprompt_amended_witness :
    handle_text_message envW dbAskPeopleW "U1" inpBadTextW =
      (dbAskPeopleW,
       [Msg.text ("人数を正しく入力してください (例: 2)。\nエラー: " ++ reprompt_error_text inpBadTextW)]) :=
  C3_reprompt_amended envW dbAskPeopleW "U1" { datetime_obj_iso := some "2024-06-01T18:00:00" }
    inpBadTextW (by decide) (by decide) (Or.inl (by decide))

/-- C4: the time-slot enumeration offers exactly the instants obtained by
starting at the business open time and stepping by the configured interval
while strictly before the close time (so a slot equal to the close time is
never offered), restricted to instants strictly more than 30 minutes after
the current moment; hence no slot within 30 minutes of now or outside the
half-open business-hours window is ever offered. -/
theorem C4_slot_enumeration (dateMidnight now m : Nat) :
    m ∈ create_time_selection_quick_reply dateMidnight now ↔
      ((∃ k, m = dateMidnight + timeMinutes STORE_OPEN_TIME + RESERVATION_INTERVAL_MINUTES * k) ∧
        dateMidnight + timeMinutes STORE_OPEN_TIME ≤ m ∧
        m < dateMidnight + timeMinutes STORE_CLOSE_TIME ∧
        now + 30 < m) := by
  unfold create_time_selection_quick_reply
  rw [slotLoopFuel_mem now _ _ _ m (by omega)]
  simp only [RESERVATION_INTERVAL_MINUTES]
  constructor
  · rintro ⟨⟨k, hk⟩, h2, h3⟩
    exact ⟨⟨k, hk⟩, by omega, h2, h3⟩
  · rintro ⟨⟨k, hk⟩, h1, h2, h3⟩
    exact ⟨⟨k, hk⟩, h2, h3⟩

/-- C5 counterexample: the claim fails as stated: after the user's state row
has been cleared, a repeated `confirm_no` postback produces no reply at all
(the handler's reply list is empty and nothing is sent), not a generic
fallback reply. -/
theorem C5_confirm_no_counterexample :
    DB.dbInit.states "U1" = none ∧
      (handle_postback envW DB.dbInit "U1" .confirmNo).2 = [] := by
  exact ⟨rfl, rfl⟩

/-- C5 (amended): for every user whose state row has already been cleared, a
repeated `confirm_no` postback leaves the store untouched and produces no
reply messages at all — in particular never a duplicate cancellation message
tied to stale data. -/
theorem C5_confirm_no_amended (env : Env) (db : DB) (uid : String)
    (hst : db.states uid = none) :
    handle_postback env db uid .confirmNo = (db, []) :=
  confirm_no_no_state hst

theorem C5_confirm_no_amended_witness :
    handle_postback envW DB.dbInit "U2" .confirmNo = (DB.dbInit, []) :=
  C5_confirm_no_amended envW DB.dbInit "U2" (by decide)

/-- C6: every reservation row ever inserted by the system has `num_people`
in `[1, 10]` and status `confirmed` — no operation writes any other status
value, and the invariant is preserved along every reachable store. -/
theorem C6_reservation_rows_invariant (db : DB) (h : Reachable db) :
    ∀ r ∈ db.reservations,
      r.status = "confirmed" ∧ 1 ≤ r.num_people ∧ r.num_people ≤ 10 :=
  fun r hr => (reachable_inv h).2 r hr

theorem C6_reservation_rows_invariant_witness :
    (dbRun4.reservations.headD resDefault).status = "confirmed" ∧
      1 ≤ (dbRun4.reservations.headD resDefault).num_people ∧
      (dbRun4.reservations.headD resDefault).num_people ≤ 10 :=
  C6_reservation_rows_invariant dbRun4
    (Reachable.step envW (.postbackEv "U1" .confirmYes)
      (Reachable.step envW (.textEv "U1" inpThreeW)
        (Reachable.step envW (.postbackEv "U1" (.selectTime (some dtRunW)))
          (Reachable.step envW (.textEv "U1" inpYoyakuW) Reachable.init))))
    (dbRun4.reservations.headD resDefault) (by decide)

/-- C7: for every `select_time` postback received while the user's state is
anything other than `ASKING_TIME` (including no state row at all), the user
is told the action was unexpected and the user's state row is deleted. -/
theorem C7_select_time_wrong_state (env : Env) (db : DB) (uid : String)
    (parsed : Option DateTime)
    (hst : stateOf db uid ≠ some "ASKING_TIME") :
    (handle_postback env db uid (.selectTime parsed)).2 =
        [Msg.text "予期せぬ操作です。最初から「予約」と入力してください。"] ∧
      (handle_postback env db uid (.selectTime parsed)).1.states uid = none := by
  rw [select_time_mismatch hst]
  refine ⟨rfl, ?_⟩
  simp [delete_user_state]

theorem C7_select_time_wrong_state_witness :
    (handle_postback envW dbAskPeopleW "U1" (.selectTime (some dtW))).2 =
        [Msg.text "予期せぬ操作です。最初から「予約」と入力してください。"] ∧
      (handle_postback envW dbAskPeopleW "U1" (.selectTime (some dtW))).1.states "U1" = none :=
  C7_select_time_wrong_state envW dbAskPeopleW "U1" (some dtW) (by decide)

/-- C8: a `select_time` postback carrying any parseable timestamp — even one
outside business hours (`is_store_open` false), with a minute component not
aligned to the reservation interval (`is_valid_reservation_minute` false) —
is accepted while in `ASKING_TIME` whenever capacity is available: the
datetime is stored and the state advances to `ASKING_PEOPLE`; moreover the
whole outcome is independent of the ambient clock, so no in-the-past check
is applied either (the two checkers are never consulted by the handlers). -/
theorem C8_select_time_skips_validation (env env2 : Env) (db : DB) (uid : String)
    (d : UserData) (dt : DateTime)
    (hst : db.states uid = some ("ASKING_TIME", d))
    (_hopen : is_store_open dt = false)
    (_hmin : is_valid_reservation_minute dt = false)
    (hcap : count_reservations_for_datetime db.reservations dt < MAX_RESERVATIONS_PER_SLOT) :
    (handle_postback env db uid (.selectTime (some dt))).1.states uid =
        some ("ASKING_PEOPLE", { d with datetime_obj_iso := some dt.isoformat }) ∧
      (handle_postback env db uid (.selectTime (some dt))).2 =
        [Msg.text (dt.strftimeHM ++ "ですね。次に、人数（1〜10）を入力してください。"),
         Msg.text "日時が選択されませんでした。"] ∧
      handle_postback env2 db uid (.selectTime (some dt)) =
        handle_postback env db uid (.selectTime (some dt)) := by
  rw [select_time_success hst hcap]
  rw [@select_time_success env2 db uid d dt hst hcap]
  refine ⟨?_, rfl, rfl⟩
  simp [set_user_state]

theorem C8_select_time_skips_validation_witness :
    is_store_open dtBadW = false ∧ is_valid_reservation_minute dtBadW = false ∧
      ((handle_postback envW dbAskTimeW "U1" (.selectTime (some dtBadW))).1.states "U1" =
          some ("ASKING_PEOPLE", { datetime_obj_iso := some dtBadW.isoformat }) ∧
        (handle_postback envW dbAskTimeW "U1" (.selectTime (some dtBadW))).2 =
          [Msg.text (dtBadW.strftimeHM ++ "ですね。次に、人数（1〜10）を入力してください。"),
           Msg.text "日時が選択されませんでした。"] ∧
        handle_postback envWFail dbAskTimeW "U1" (.selectTime (some dtBadW)) =
          handle_postback envW dbAskTimeW "U1" (.selectTime (some dtBadW))) :=
  ⟨by decide, by decide,
   C8_select_time_skips_validation envW envWFail dbAskTimeW "U1" {} dtBadW
     (by decide) (by decide) (by decide) (by decide)⟩

/-- C9: for every `select_time` postback handled in state `ASKING_TIME`
whose try block completes without raising (the parse succeeds, covering both
the fully-booked branch and the successful selection branch), the reply list
additionally ends with the message `日時が選択されませんでした。`, because the
`else` clause of the `try` statement executes whenever no exception
occurred. -/
theorem C9_trailing_else_message (env : Env) (db : DB) (uid : String) (d : UserData)
    (dt : DateTime)
    (hst : db.states uid = some ("ASKING_TIME", d)) :
    (handle_postback env db uid (.selectTime (some dt))).2.getLast? =
      some (Msg.text "日時が選択されませんでした。") := by
  by_cases hcap : MAX_RESERVATIONS_PER_SLOT ≤ count_reservations_for_datetime db.reservations dt
  · rw [select_time_full hst hcap]
    rfl
  · rw [select_time_success hst (by omega)]
    rfl

theorem C9_trailing_else_message_witness :
    (handle_postback envW dbAskTimeW "U1" (.selectTime (some dtW))).2.getLast? =
      some (Msg.text "日時が選択されませんでした。") :=
  C9_trailing_else_message envW dbAskTimeW "U1" {} dtW (by decide)

/-- C10: when `confirm_yes` is received in state `CONFIRMING_RESERVATION`
with both data fields present and capacity available but the reservation
insert fails (`create_reservation` returns false), an error message is sent
and the user's state row is left unchanged — still `CONFIRMING_RESERVATION`
with the same data — and no reservation row is added, so the user can retry
`confirm_yes` directly. -/
theorem C10_insert_failure_keeps_state (env : Env) (db : DB) (uid : String)
    (d : UserData) (s : String) (dt : DateTime) (n : Int)
    (hst : db.states uid = some ("CONFIRMING_RESERVATION", d))
    (hdt : d.datetime_obj_iso = some s) (hp : fromisoformat s = some dt)
    (hpe : d.people = some n) (hn : n ≠ 0)
    (hcap : count_reservations_for_datetime db.reservations dt < MAX_RESERVATIONS_PER_SLOT)
    (hfail : env.insertOk = false) :
    (handle_postback env db uid .confirmYes).2 =
        [Msg.text "申し訳ありません、予約の処理中にエラーが発生しました。お手数ですが、少し時間をおいて再度お試しください。"] ∧
      (handle_postback env db uid .confirmYes).1.states uid =
        some ("CONFIRMING_RESERVATION", d) ∧
      (handle_postback env db uid .confirmYes).1.reservations = db.reservations := by
  rw [confirm_yes_insert_fail hst hdt hp hpe hn hcap hfail]
  exact ⟨rfl, hst, rfl⟩

theorem C10_insert_failure_keeps_state_witness :
    (handle_postback envWFail dbFreeW "U1" .confirmYes).2 =
        [Msg.text "申し訳ありません、予約の処理中にエラーが発生しました。お手数ですが、少し時間をおいて再度お試しください。"] ∧
      (handle_postback envWFail dbFreeW "U1" .confirmYes).1.states "U1" =
        some ("CONFIRMING_RESERVATION", dataW2) ∧
      (handle_postback envWFail dbFreeW "U1" .confirmYes).1.reservations = dbFreeW.reservations :=
  C10_insert_failure_keeps_state envWFail dbFreeW "U1" dataW2 "2024-06-02T18:00:00" dtW2 3
    (by decide) (by decide) (by decide) (by decide) (by decide) (by decide) (by decide)
